import Mathlib

/-!
# Generation pipeline orchestrator — shallow embedding

Embedding of the coordinator logic of `src/context/ConfigContext.tsx`
(ergogen-gui): the state held by the provider, the dispatch routine
`runGeneration`, the two response handlers `handleErgogenWorkerMessage`
and `handleJscadWorkerMessage`, and the lodash-style trailing debounce
used by `processInput`. Stateful React hooks become explicit state
passing; `postMessage` calls become an emitted message list.
-/

namespace ErgogenGui

/-- Models the TS optional property `stl?: string` of `CaseOutput`.
`pending` is the property explicitly assigned `undefined`
(`newResults.cases[name].stl = undefined`), distinct from `absent`
(the property never set). -/
inductive StlField
  | absent
  | pending
  | val (s : String)
  deriving DecidableEq

/-- TS type `CaseOutput = { jscad?: string; stl?: string }`. -/
structure CaseOutput where
  jscad : Option String
  stl : StlField
  deriving DecidableEq

/-- The `Results` document: the `cases` category (an object modelled as an
association list in key order, `none` when the key is absent/falsy) plus
the remaining categories (points, outlines, pcbs, …) kept opaque. -/
structure Results where
  cases : Option (List (String × CaseOutput))
  other : List (String × String)
  deriving DecidableEq

/-- Truthiness of `caseObj?.jscad` (falsy when absent or the empty string). -/
def jscadTruthy : Option String → Bool
  | some s => !(s == "")
  | none => false

/-- The loop in `handleErgogenWorkerMessage` that marks STL as pending:
`for (const name of Object.keys(newResults.cases)) if (caseObj?.jscad)
newResults.cases[name].stl = undefined`. -/
def markStlPending (cs : List (String × CaseOutput)) : List (String × CaseOutput) :=
  cs.map (fun nc =>
    if jscadTruthy nc.2.jscad then (nc.1, { nc.2 with stl := StlField.pending })
    else nc)

/-- A footprint entry of a PCB: `what` is `some w` when the `what` field is
the string `w`, `none` when absent or not a string. -/
structure Footprint where
  what : Option String
  deriving DecidableEq

/-- A PCB entry of the parsed config. `template = none` models an absent
template; `some ""` an empty one (both falsy for `!pcb.template`). -/
structure Pcb where
  template : Option String
  footprints : Option (List (String × Option Footprint))
  deriving DecidableEq

/-- Parsed configuration as far as `runGeneration` inspects it:
truthiness of the `points` key, the `pcbs` object (`none` when falsy),
presence of the `cases` key, and an opaque remainder. -/
structure ParsedConfig where
  points : Bool
  pcbs : Option (List (String × Pcb))
  cases : Bool
  rest : String
  deriving DecidableEq

/-- TS type `ProcessOptions = { pointsonly: boolean }`. -/
structure ProcessOptions where
  pointsonly : Bool
  deriving DecidableEq

/-- The `inputConfig` sent to the Ergogen worker: either the raw text or
the parsed config with `pcbs` and `cases` stripped
(`{...parsedConfig, pcbs: undefined, cases: undefined}`). -/
inductive InputConfig
  | rawText (t : String)
  | strippedCfg (c : ParsedConfig)
  deriving DecidableEq

/-- Stripping `{...parsedConfig, pcbs: undefined, cases: undefined}`. -/
def stripCfg (c : ParsedConfig) : ParsedConfig :=
  { c with pcbs := none, cases := false }

/-- Messages posted to the two workers. `generate` carries the request
version that is embedded in the `requestId` string
(`ergogen-generate-_version_-_timestamp_`); the constant `svg: true`
option and the timestamp are omitted. `batchJscadToStl` carries
`configVersion: currentConfigVersion.current`. -/
inductive OutMsg
  | generate (cfg : InputConfig) (injections : Option (List (List String)))
      (version : Nat) (dbg : Bool)
  | batchJscadToStl (res : Results) (configVersion : Nat)
  deriving DecidableEq

/-- Coordinator state: the React state cells and the
`currentConfigVersion` ref mutated by `runGeneration` and the two
response handlers. -/
structure CoordState where
  error : Option String
  deprecationWarning : Option String
  results : Option Results
  resultsVersion : Nat
  isGenerating : Bool
  isJscadConverting : Bool
  currentConfigVersion : Nat
  deriving DecidableEq

/-- Outcome of `ergogenWorkerRef.current.postMessage` when attempted:
either the message is delivered, or the call throws (the thrown value
modelled as a string, matching the `typeof e === 'string'` branch of the
catch; a thrown `""` is falsy and hits the `if (!e) return`). -/
inductive PostResult
  | ok
  | throwsStr (e : String)
  deriving DecidableEq

/-- Environment fixed during one dispatch/handler run: the `stlPreview`
and `debug` settings, whether each worker ref is non-null, and the
behaviour of `postMessage` on the Ergogen worker. -/
structure Env where
  stlPreview : Bool
  debug : Bool
  ergogenWorker : Bool
  jscadWorker : Bool
  ergogenPost : PostResult
  deriving DecidableEq

/-- The deprecation warning text set by the KiCad 5 scan in `runGeneration`. -/
def deprecationMessage : String :=
  "KiCad 5 is deprecated. Please add \"template: kicad8\" to your PCB definitions to avoid errors when opening PCB files with KiCad 8 or newer."

/-- Truthiness test `!pcb.template` — template absent or empty. -/
def templateFalsy : Option String → Bool
  | none => true
  | some t => t == ""

/-- The JS `s.startsWith(pre)` test, computed on the character lists of
the two strings. -/
def strStartsWith (s pre : String) : Bool :=
  pre.data.isPrefixOf s.data

/-- The test `footprint && typeof footprint.what === 'string' &&
footprint.what.startsWith('ceoloide')`. -/
def footprintDeprecated : Option Footprint → Bool
  | some f =>
    match f.what with
    | some w => strStartsWith w "ceoloide"
    | none => false
  | none => false

/-- Inner part of the deprecation scan for one PCB: legacy template
(`!pcb.template || pcb.template === 'kicad5'`) and some footprint value
matching the deprecated family. The loop-with-break over
`Object.values(pcb.footprints)` is `List.any`. -/
def pcbHasDeprecated (pcb : Pcb) : Bool :=
  if templateFalsy pcb.template || pcb.template == some "kicad5" then
    match pcb.footprints with
    | some fps => fps.any (fun p => footprintDeprecated p.2)
    | none => false
  else false

/-- The scan over `Object.values(parsedConfig.pcbs)`; the outer
loop-with-break (`warningFound`) is `List.any`. -/
def deprecationScan (pcbs : List (String × Pcb)) : Bool :=
  pcbs.any (fun p => pcbHasDeprecated p.2)

/-- The deprecation scan step of `runGeneration` (lines 519–551): when the
parsed config has a truthy `pcbs` object and the scan matches, sets the
deprecation warning; otherwise leaves the state alone. Runs on the
*unmodified* parsed config (the `pointsonly` stripping happens after). -/
def scanStep (parsed : Option ParsedConfig) (s1 : CoordState) : CoordState :=
  match parsed with
  | some cfg =>
    match cfg.pcbs with
    | some pcbList =>
      if deprecationScan pcbList then
        { s1 with deprecationWarning := some deprecationMessage }
      else s1
    | none => s1
  | none => s1

/-- The `inputConfig` shaping of `runGeneration` (lines 553–562): if the
parsed config has a truthy `points` key and `options.pointsonly` holds,
send the stripped parsed config, else send the text as-is. -/
def mkInputConfig (text : String) (parsed : Option ParsedConfig)
    (opts : ProcessOptions) : InputConfig :=
  match parsed with
  | some cfg =>
    if cfg.points && opts.pointsonly then InputConfig.strippedCfg (stripCfg cfg)
    else InputConfig.rawText text
  | none => InputConfig.rawText text

/-- The try/catch dispatch of `runGeneration` (lines 564–592): post the
generate message when the worker ref is non-null; a null ref only logs
(`console.error`), mutating nothing; a throwing `postMessage` clears
`isGenerating` and, when the thrown string is truthy, surfaces it via
`setError`. -/
def dispatchStep (env : Env) (s2 : CoordState) (ic : InputConfig)
    (inj : Option (List (List String))) : CoordState × List OutMsg :=
  if env.ergogenWorker then
    match env.ergogenPost with
    | PostResult.ok =>
      (s2, [OutMsg.generate ic inj s2.currentConfigVersion env.debug])
    | PostResult.throwsStr e =>
      if e == "" then ({ s2 with isGenerating := false }, [])
      else ({ s2 with isGenerating := false, error := some e }, [])
  else
    (s2, [])

/-- The synchronous updates at the head of `runGeneration` (lines
514–517): `setError(null)`, `setDeprecationWarning(null)`,
`setIsGenerating(true)`, `currentConfigVersion.current += 1`. -/
def beginCycle (s : CoordState) : CoordState :=
  { s with error := none, deprecationWarning := none, isGenerating := true,
           currentConfigVersion := s.currentConfigVersion + 1 }

/-- Function `runGeneration(textInput, injectionInput, options)` of
`ConfigContext.tsx` lines 501–592, as a function from the coordinator
state to the new state plus the messages posted. `parse` is the
JSON/YAML collaborator (`parseConfig`), returning `none` when both
parses fail. The guard is `if (!textInput) return` (undefined or empty
string); then error and warning are cleared, `isGenerating` set, and
`currentConfigVersion` incremented, before the scan and dispatch. -/
def runGeneration (env : Env) (parse : String → Option ParsedConfig)
    (s : CoordState) (textInput : Option String)
    (inj : Option (List (List String))) (opts : ProcessOptions) :
    CoordState × List OutMsg :=
  match textInput with
  | none => (s, [])
  | some text =>
    if text == "" then (s, [])
    else
      let parsed := parse text
      dispatchStep env (scanStep parsed (beginCycle s))
        (mkInputConfig text parsed opts) inj

/-- A response from the Ergogen worker. `origin` is the request version of
the generation cycle that produced the response (the version embedded in
the request's `requestId`); the handler never reads it. `other` is any
response whose `type` is neither `'error'` nor `'success'`. -/
inductive ErgogenResponse
  | err (e : String) (origin : Nat)
  | success (warnings : List String) (results : Option Results) (origin : Nat)
  | other
  deriving DecidableEq

/-- The update `setDeprecationWarning(prev => (prev ? prev + '\n' : '') +
response.warnings.join('\n'))` — applied only when the warnings list is
nonempty. -/
def appendWarnings (prev : Option String) (ws : List String) : Option String :=
  some ((match prev with
         | some p => if p == "" then "" else p ++ "\n"
         | none => "") ++ String.intercalate "\n" ws)

/-- Handler `handleErgogenWorkerMessage` of `ConfigContext.tsx` lines 308–379. -/
def handleErgogenWorkerMessage (env : Env) (s : CoordState)
    (resp : ErgogenResponse) : CoordState × List OutMsg :=
  match resp with
  | .err e _ =>
    ({ s with error := some e, isGenerating := false, isJscadConverting := false }, [])
  | .success ws res _ =>
    let s1 := if ws.isEmpty then s
              else { s with deprecationWarning := appendWarnings s.deprecationWarning ws }
    match res with
    | some r =>
      match r.cases with
      | some cs =>
        if env.stlPreview && !cs.isEmpty then
          let r2 : Results := { r with cases := some (markStlPending cs) }
          if env.jscadWorker then
            ({ s1 with isJscadConverting := true, results := some r2,
                       resultsVersion := s1.resultsVersion + 1 },
             [OutMsg.batchJscadToStl r2 s1.currentConfigVersion])
          else
            ({ s1 with results := some r2, resultsVersion := s1.resultsVersion + 1,
                       isGenerating := false }, [])
        else
          ({ s1 with results := some r, resultsVersion := s1.resultsVersion + 1,
                     isGenerating := false }, [])
      | none =>
        ({ s1 with results := some r, resultsVersion := s1.resultsVersion + 1,
                   isGenerating := false }, [])
    | none => ({ s1 with isGenerating := false }, [])
  | .other => ({ s with isGenerating := false }, [])

/-- A response from the JSCAD worker, always carrying `configVersion`. -/
inductive JscadResponse
  | err (e : String) (configVersion : Nat)
  | success (results : Option Results) (configVersion : Nat)
  deriving DecidableEq

/-- The `configVersion` stamp of a JSCAD response. -/
def JscadResponse.version : JscadResponse → Nat
  | .err _ v => v
  | .success _ v => v

/-- Handler `handleJscadWorkerMessage` of `ConfigContext.tsx` lines 384–410. -/
def handleJscadWorkerMessage (s : CoordState) (resp : JscadResponse) :
    CoordState × List OutMsg :=
  if resp.version ≠ s.currentConfigVersion then (s, [])
  else
    match resp with
    | .err _ _ => ({ s with isJscadConverting := false, isGenerating := false }, [])
    | .success res _ =>
      match res with
      | some r =>
        ({ s with results := some r, resultsVersion := s.resultsVersion + 1,
                  isJscadConverting := false, isGenerating := false }, [])
      | none => (s, [])

/-- Arguments of one `processInput`/`runGeneration` call. -/
structure GenArgs where
  textInput : Option String
  inj : Option (List (List String))
  opts : ProcessOptions
  deriving DecidableEq

/-- Trailing-edge debounce (`lodash.debounce(runGeneration, 300)`): given
the timestamped call sequence (strictly increasing times), the
timestamped invocations that actually fire. A call is coalesced away
exactly when the next call arrives before its quiet period elapses. -/
def debounceFires (wait : Nat) : List (Nat × GenArgs) → List (Nat × GenArgs)
  | [] => []
  | (t, a) :: rest =>
    match rest with
    | [] => [(t + wait, a)]
    | (t2, _) :: _ =>
      if t2 < t + wait then debounceFires wait rest
      else (t + wait, a) :: debounceFires wait rest

/-- All consecutive gaps of the call sequence are inside the quiet period. -/
def gapsWithin (wait : Nat) : List (Nat × GenArgs) → Bool
  | (t, _) :: (t2, a2) :: rest =>
    decide (t2 < t + wait) && gapsWithin wait ((t2, a2) :: rest)
  | _ => true

/-! ## Sample values used by counterexamples and witnesses -/

/-- Parser collaborator that fails on every input. -/
def parseNone : String → Option ParsedConfig := fun _ => none

/-- Options `{ pointsonly: true }`. -/
def optsPointsOnly : ProcessOptions := ⟨true⟩

/-- Both workers up, `postMessage` succeeds, STL preview off. -/
def envPlain : Env := ⟨false, false, true, true, PostResult.ok⟩

/-- Both workers up, `postMessage` succeeds, STL preview on. -/
def envStl : Env := ⟨true, false, true, true, PostResult.ok⟩

/-- Ergogen worker ref is null (channel unavailable). -/
def envNoWorker : Env := ⟨false, false, false, false, PostResult.ok⟩

/-- Environment where `postMessage` on the Ergogen worker throws the string `"worker exploded"`. -/
def envThrow : Env := ⟨false, false, true, true, PostResult.throwsStr "worker exploded"⟩

/-- Fresh provider state: no results, idle, version 0. -/
def initialState : CoordState := ⟨none, none, none, 0, false, false, 0⟩

/-! ## Helper lemmas about the pipeline steps -/

/-- Step `dispatchStep` never changes `currentConfigVersion`. -/
theorem dispatchStep_version (env : Env) (s2 : CoordState) (ic : InputConfig)
    (inj : Option (List (List String))) :
    (dispatchStep env s2 ic inj).1.currentConfigVersion = s2.currentConfigVersion := by
  unfold dispatchStep
  repeat' split
  all_goals rfl

/-- Step `dispatchStep` never changes the deprecation warning. -/
theorem dispatchStep_warning (env : Env) (s2 : CoordState) (ic : InputConfig)
    (inj : Option (List (List String))) :
    (dispatchStep env s2 ic inj).1.deprecationWarning = s2.deprecationWarning := by
  unfold dispatchStep
  repeat' split
  all_goals rfl

/-- Step `dispatchStep` posts at most the one generate message, stamped with the
version of the state it dispatches from. -/
theorem dispatchStep_msgs (env : Env) (s2 : CoordState) (ic : InputConfig)
    (inj : Option (List (List String))) :
    (dispatchStep env s2 ic inj).2 = [] ∨
    (dispatchStep env s2 ic inj).2 =
      [OutMsg.generate ic inj s2.currentConfigVersion env.debug] := by
  unfold dispatchStep
  repeat' split
  all_goals simp

/-- Step `scanStep` only ever touches the deprecation warning. -/
theorem scanStep_version (parsed : Option ParsedConfig) (s1 : CoordState) :
    (scanStep parsed s1).currentConfigVersion = s1.currentConfigVersion := by
  unfold scanStep
  repeat' split
  all_goals rfl

/-- Step `scanStep` leaves `isGenerating` alone. -/
theorem scanStep_isGenerating (parsed : Option ParsedConfig) (s1 : CoordState) :
    (scanStep parsed s1).isGenerating = s1.isGenerating := by
  unfold scanStep
  repeat' split
  all_goals rfl

/-- Step `scanStep` leaves the error alone. -/
theorem scanStep_error (parsed : Option ParsedConfig) (s1 : CoordState) :
    (scanStep parsed s1).error = s1.error := by
  unfold scanStep
  repeat' split
  all_goals rfl

/-- Unfolding of `runGeneration` on a nonempty snapshot. -/
theorem runGeneration_nonempty (env : Env) (parse : String → Option ParsedConfig)
    (s : CoordState) (text : String) (inj : Option (List (List String)))
    (opts : ProcessOptions) (ht : (text == "") = false) :
    runGeneration env parse s (some text) inj opts =
      dispatchStep env (scanStep (parse text) (beginCycle s))
        (mkInputConfig text (parse text) opts) inj := by
  unfold runGeneration
  simp [ht]

/-- A nonempty list is not `isEmpty`. -/
theorem isEmpty_false_of_ne_nil {α : Type} {l : List α} (h : l ≠ []) :
    l.isEmpty = false := by
  cases l with
  | nil => exact absurd rfl h
  | cons a t => rfl

/-! ## C1 — stale responses and the version gate -/

/-- State reached after two consecutive dispatches from the fresh state
(request versions 1 then 2). -/
def c1StateAfterTwo : CoordState :=
  (runGeneration envPlain parseNone
    (runGeneration envPlain parseNone initialState (some "v1 config") none optsPointsOnly).1
    (some "v2 config") none optsPointsOnly).1

/-- A result document produced by the version-1 primary request. -/
def c1StaleDoc : Results := ⟨none, [("points", "from v1")]⟩

/-- Claim C1 is false on the code: after version 2 has been dispatched
(current version is 2), a primary success response stamped with the
stale version 1 still mutates the stored result document — the primary
handler performs no correlation check at all. -/
theorem c1_counterexample :
    c1StateAfterTwo.currentConfigVersion = 2 ∧
    (1 : Nat) ≠ c1StateAfterTwo.currentConfigVersion ∧
    (handleErgogenWorkerMessage envPlain c1StateAfterTwo
        (ErgogenResponse.success [] (some c1StaleDoc) 1)).1.results ≠
      c1StateAfterTwo.results := by
  decide

/-- Claim C1 (amended): the arrival-time version gate exists only on the
secondary channel — a JSCAD response whose `configVersion` differs from
the `currentConfigVersion` at the moment of arrival is discarded
unconditionally, with no state change and no message; primary responses
are applied without any such check. -/
theorem c1_stale_secondary_discarded (s : CoordState) (resp : JscadResponse)
    (h : resp.version ≠ s.currentConfigVersion) :
    handleJscadWorkerMessage s resp = (s, []) := by
  unfold handleJscadWorkerMessage
  simp [h]

/-- State with a secondary conversion outstanding at version 5. -/
def c1WitnessState : CoordState := ⟨none, none, none, 4, true, true, 5⟩

/-- Witness for the amended C1: a version-3 secondary success arriving
while the current version is 5 is discarded whole. -/
theorem c1_stale_secondary_discarded_witness :
    handleJscadWorkerMessage c1WitnessState
        (JscadResponse.success (some c1StaleDoc) 3) = (c1WitnessState, []) :=
  c1_stale_secondary_discarded c1WitnessState
    (JscadResponse.success (some c1StaleDoc) 3) (by decide)

/-! ## C2 — accepted secondary success -/

/-- Stored document at the time the secondary response arrives: one case
pending conversion, plus an unrelated `points` category. -/
def c2Stored : Results :=
  ⟨some [("case1", ⟨some "cube();", StlField.pending⟩)], [("points", "pts")]⟩

/-- The document carried by the secondary success response: the mesh is
filled in, but the unrelated category is different (absent). -/
def c2Incoming : Results :=
  ⟨some [("case1", ⟨some "cube();", StlField.val "solid 3mf"⟩)], []⟩

/-- State holding `c2Stored`, busy, with the response's version current. -/
def c2State : CoordState := ⟨none, none, some c2Stored, 5, true, true, 7⟩

/-- Claim C2 is false on the code: on an accepted secondary success the
stored document is replaced wholesale by the response's document
(`setResults(response.results)`), so a category other than the merged
mesh fields does change. -/
theorem c2_counterexample :
    (JscadResponse.success (some c2Incoming) 7).version =
      c2State.currentConfigVersion ∧
    (handleJscadWorkerMessage c2State
        (JscadResponse.success (some c2Incoming) 7)).1.results = some c2Incoming ∧
    c2Incoming.other ≠ c2Stored.other := by
  decide

/-- Claim C2 (amended): on an accepted secondary success carrying a
document, the stored result document is replaced wholesale by the
response's document (no field-by-field merge), the result-version
counter increments, and both busy flags clear. -/
theorem c2_secondary_success_replaces (s : CoordState) (r : Results) (v : Nat)
    (h : v = s.currentConfigVersion) :
    handleJscadWorkerMessage s (JscadResponse.success (some r) v) =
      ({ s with results := some r, resultsVersion := s.resultsVersion + 1,
                isJscadConverting := false, isGenerating := false }, []) := by
  unfold handleJscadWorkerMessage
  simp [JscadResponse.version, h]

/-- Witness for the amended C2 at the concrete counterexample state. -/
theorem c2_secondary_success_replaces_witness :
    handleJscadWorkerMessage c2State (JscadResponse.success (some c2Incoming) 7) =
      ({ c2State with results := some c2Incoming,
                      resultsVersion := c2State.resultsVersion + 1,
                      isJscadConverting := false, isGenerating := false }, []) :=
  c2_secondary_success_replaces c2State c2Incoming 7 (by decide)

/-! ## C7 — primary error response -/

/-- Claim C7: on a primary error response the stored error text equals the
response's message, busy is false (both flags clear), and no message is
posted to either worker — the secondary stage is never entered. -/
theorem c7_primary_error_aborts (env : Env) (s : CoordState) (e : String) (o : Nat) :
    (handleErgogenWorkerMessage env s (ErgogenResponse.err e o)).1.error = some e ∧
    (handleErgogenWorkerMessage env s (ErgogenResponse.err e o)).1.isGenerating = false ∧
    (handleErgogenWorkerMessage env s (ErgogenResponse.err e o)).1.isJscadConverting = false ∧
    (handleErgogenWorkerMessage env s (ErgogenResponse.err e o)).2 = [] :=
  ⟨rfl, rfl, rfl, rfl⟩

/-! ## C8 — accepted secondary error -/

/-- Claim C8: on an accepted secondary error response, both busy flags
clear while the stored result document, the result-version counter and
the error text are all left unchanged, and no message is posted — the
secondary failure is silent. -/
theorem c8_secondary_error_degrades (s : CoordState) (e : String) (v : Nat)
    (h : v = s.currentConfigVersion) :
    (handleJscadWorkerMessage s (JscadResponse.err e v)).1.results = s.results ∧
    (handleJscadWorkerMessage s (JscadResponse.err e v)).1.resultsVersion = s.resultsVersion ∧
    (handleJscadWorkerMessage s (JscadResponse.err e v)).1.error = s.error ∧
    (handleJscadWorkerMessage s (JscadResponse.err e v)).1.isGenerating = false ∧
    (handleJscadWorkerMessage s (JscadResponse.err e v)).1.isJscadConverting = false ∧
    (handleJscadWorkerMessage s (JscadResponse.err e v)).2 = [] := by
  unfold handleJscadWorkerMessage
  simp [JscadResponse.version, h]

/-- Witness for C8: a matching-version secondary error at a concrete
state retains the stored document. -/
theorem c8_secondary_error_degrades_witness :
    (handleJscadWorkerMessage c2State (JscadResponse.err "conversion failed" 7)).1.results =
      c2State.results :=
  (c8_secondary_error_degrades c2State "conversion failed" 7 (by decide)).1

/-! ## C10 — empty or undefined snapshot -/

/-- Claim C10: `runGeneration` (the routine both the debounced and the
immediate trigger invoke) on an undefined or empty snapshot text is a
complete no-op — the state (version counter, busy flag, error, warning,
stored document, result-version counter) is returned unchanged and no
message is posted to either worker. -/
theorem c10_empty_input_noop (env : Env) (parse : String → Option ParsedConfig)
    (s : CoordState) (inj : Option (List (List String))) (opts : ProcessOptions) :
    runGeneration env parse s none inj opts = (s, []) ∧
    runGeneration env parse s (some "") inj opts = (s, []) := by
  constructor
  · rfl
  · unfold runGeneration
    simp

/-! ## C3 — dispatch failure -/

/-- Claim C3 is false on the code: when the executor channel is
unavailable (null worker ref), the dispatch call leaves busy set
(`isGenerating = true`), surfaces no error, and sends nothing — only the
`postMessage`-throws path clears busy and sets the error. -/
theorem c3_counterexample :
    (runGeneration envNoWorker parseNone initialState (some "a config") none
        optsPointsOnly).1.isGenerating = true ∧
    (runGeneration envNoWorker parseNone initialState (some "a config") none
        optsPointsOnly).1.error = none ∧
    (runGeneration envNoWorker parseNone initialState (some "a config") none
        optsPointsOnly).2 = [] := by
  decide

/-- Claim C3 (amended): if `postMessage` itself throws (a truthy string),
then synchronously within the dispatch call busy is cleared, the thrown
value is surfaced as the current error, and no message is sent (no
retry); if instead the executor channel is null, no message is sent and
no retry occurs either, but busy remains set and no error is surfaced. -/
theorem c3_dispatch_failure (parse : String → Option ParsedConfig)
    (s : CoordState) (text : String) (inj : Option (List (List String)))
    (opts : ProcessOptions) (envT envN : Env) (e : String)
    (ht : (text == "") = false)
    (hw : envT.ergogenWorker = true)
    (he : envT.ergogenPost = PostResult.throwsStr e)
    (hne : (e == "") = false)
    (hn : envN.ergogenWorker = false) :
    ((runGeneration envT parse s (some text) inj opts).1.isGenerating = false ∧
     (runGeneration envT parse s (some text) inj opts).1.error = some e ∧
     (runGeneration envT parse s (some text) inj opts).2 = []) ∧
    ((runGeneration envN parse s (some text) inj opts).1.isGenerating = true ∧
     (runGeneration envN parse s (some text) inj opts).1.error = none ∧
     (runGeneration envN parse s (some text) inj opts).2 = []) := by
  rw [runGeneration_nonempty envT parse s text inj opts ht,
      runGeneration_nonempty envN parse s text inj opts ht]
  unfold dispatchStep
  rw [he]
  simp [hw, hn, hne, scanStep_isGenerating, scanStep_error, beginCycle]

/-- Witness for the amended C3: with a throwing `postMessage` the thrown
string becomes the current error. -/
theorem c3_dispatch_failure_witness :
    (runGeneration envThrow parseNone initialState (some "a config") none
        optsPointsOnly).1.isGenerating = false :=
  (c3_dispatch_failure parseNone initialState "a config" none optsPointsOnly
    envThrow envNoWorker "worker exploded"
    (by decide) rfl rfl (by decide) rfl).1.1

/-! ## C4 — the request version counter -/

/-- Claim C4 is false on the code: with the executor channel unavailable
no primary request is dispatched, yet `currentConfigVersion` is still
incremented by the call. -/
theorem c4_counterexample :
    (runGeneration envNoWorker parseNone initialState (some "a config") none
        optsPointsOnly).1.currentConfigVersion =
      initialState.currentConfigVersion + 1 ∧
    (runGeneration envNoWorker parseNone initialState (some "a config") none
        optsPointsOnly).2 = [] := by
  decide

/-- Claim C4 (amended): `currentConfigVersion` is incremented exactly once
per `runGeneration` invocation that passes the nonempty-snapshot guard —
including invocations whose dispatch never happens (channel unavailable)
or throws — and at most one primary request is posted, stamped with the
incremented version; an empty or undefined snapshot leaves the counter
(and everything else) unchanged. Calls coalesced away by the debounce
window never invoke `runGeneration` at all (see `debounceFires`). -/
theorem c4_version_per_invocation (env : Env) (parse : String → Option ParsedConfig)
    (s : CoordState) (text : String) (inj : Option (List (List String)))
    (opts : ProcessOptions) (ht : (text == "") = false) :
    (runGeneration env parse s (some text) inj opts).1.currentConfigVersion =
      s.currentConfigVersion + 1 ∧
    (runGeneration env parse s (some text) inj opts).2.length ≤ 1 ∧
    (∀ m ∈ (runGeneration env parse s (some text) inj opts).2,
      m = OutMsg.generate (mkInputConfig text (parse text) opts) inj
            (s.currentConfigVersion + 1) env.debug) ∧
    runGeneration env parse s none inj opts = (s, []) ∧
    runGeneration env parse s (some "") inj opts = (s, []) := by
  rw [runGeneration_nonempty env parse s text inj opts ht]
  refine ⟨?_, ?_, ?_, rfl, by unfold runGeneration; simp⟩
  · rw [dispatchStep_version, scanStep_version]
    rfl
  · rcases dispatchStep_msgs env (scanStep (parse text) (beginCycle s))
      (mkInputConfig text (parse text) opts) inj with h | h <;> simp [h]
  · intro m hm
    rcases dispatchStep_msgs env (scanStep (parse text) (beginCycle s))
      (mkInputConfig text (parse text) opts) inj with h | h
    · rw [h] at hm
      exact absurd hm (List.not_mem_nil m)
    · rw [h] at hm
      rw [List.mem_singleton] at hm
      rw [hm, scanStep_version]
      rfl

/-- Witness for the amended C4: a successful dispatch from the fresh
state bumps the version from 0 to 1. -/
theorem c4_version_per_invocation_witness :
    (runGeneration envPlain parseNone initialState (some "a config") none
        optsPointsOnly).1.currentConfigVersion =
      initialState.currentConfigVersion + 1 :=
  (c4_version_per_invocation envPlain parseNone initialState "a config" none
    optsPointsOnly (by decide)).1

/-! ## C6 — entering the secondary stage -/

/-- Every entry of `markStlPending cs` whose geometry field is truthy has
its STL field set to the explicit pending placeholder. -/
theorem markStlPending_mem (cs : List (String × CaseOutput))
    (nc : String × CaseOutput) (hm : nc ∈ markStlPending cs)
    (ht : jscadTruthy nc.2.jscad = true) : nc.2.stl = StlField.pending := by
  unfold markStlPending at hm
  rw [List.mem_map] at hm
  obtain ⟨p, _, he⟩ := hm
  by_cases h : jscadTruthy p.2.jscad = true
  · rw [if_pos h] at he
    subst he
    rfl
  · rw [if_neg h] at he
    subst he
    exact absurd ht h

/-- A result document whose one case entry has no geometry at all. -/
def c6NoGeomDoc : Results := ⟨some [("case1", ⟨none, StlField.absent⟩)], []⟩

/-- A busy state in the middle of cycle 1. -/
def c6BusyState : CoordState := ⟨none, none, none, 0, true, false, 1⟩

/-- Claim C6 is false on the code: the secondary stage is triggered by a
merely nonempty `cases` object, not by the existence of an entry with
geometry but no mesh — on a success whose single case has no geometry,
the coordinator still posts a secondary request and leaves busy set,
where the claim requires busy to clear with no secondary request. -/
theorem c6_counterexample :
    (c6NoGeomDoc.cases.getD []).all (fun nc => !(jscadTruthy nc.2.jscad)) = true ∧
    (handleErgogenWorkerMessage envStl c6BusyState
        (ErgogenResponse.success [] (some c6NoGeomDoc) 1)).1.isGenerating = true ∧
    (handleErgogenWorkerMessage envStl c6BusyState
        (ErgogenResponse.success [] (some c6NoGeomDoc) 1)).2 ≠ [] := by
  decide

/-- Claim C6 (amended): on a primary success with mesh-preview enabled,
the secondary stage is entered whenever the document's `cases` object is
present and nonempty (regardless of which entries hold geometry): every
entry with truthy geometry has its mesh set to the explicit pending
placeholder, exactly one secondary request is posted (carrying the
pending-marked document and the current version), busy is left as it
was, and the converting flag is set; when mesh-preview is disabled or
`cases` is absent or empty, busy clears and no secondary request is
posted. -/
theorem c6_secondary_trigger (env : Env) (s : CoordState) (ws : List String)
    (r : Results) (cs : List (String × CaseOutput)) (o : Nat)
    (hp : env.stlPreview = true) (hj : env.jscadWorker = true)
    (hc : r.cases = some cs) (hne : cs ≠ []) :
    (handleErgogenWorkerMessage env s (ErgogenResponse.success ws (some r) o)).2 =
      [OutMsg.batchJscadToStl { r with cases := some (markStlPending cs) }
        s.currentConfigVersion] ∧
    (handleErgogenWorkerMessage env s (ErgogenResponse.success ws (some r) o)).1.isGenerating =
      s.isGenerating ∧
    (handleErgogenWorkerMessage env s (ErgogenResponse.success ws (some r) o)).1.isJscadConverting =
      true ∧
    (handleErgogenWorkerMessage env s (ErgogenResponse.success ws (some r) o)).1.results =
      some { r with cases := some (markStlPending cs) } ∧
    (∀ nc ∈ markStlPending cs,
      jscadTruthy nc.2.jscad = true → nc.2.stl = StlField.pending) ∧
    (∀ (env2 : Env) (s2 : CoordState) (ws2 : List String) (r2 : Results) (o2 : Nat),
      env2.stlPreview = false ∨ r2.cases = none ∨ r2.cases = some [] →
      ((handleErgogenWorkerMessage env2 s2
          (ErgogenResponse.success ws2 (some r2) o2)).2 = [] ∧
       (handleErgogenWorkerMessage env2 s2
          (ErgogenResponse.success ws2 (some r2) o2)).1.isGenerating = false)) := by
  have hmain : handleErgogenWorkerMessage env s (ErgogenResponse.success ws (some r) o) =
      (let s1 := if ws.isEmpty then s
                 else { s with deprecationWarning := appendWarnings s.deprecationWarning ws }
       ({ s1 with isJscadConverting := true,
                  results := some { r with cases := some (markStlPending cs) },
                  resultsVersion := s1.resultsVersion + 1 },
        [OutMsg.batchJscadToStl { r with cases := some (markStlPending cs) }
          s.currentConfigVersion])) := by
    unfold handleErgogenWorkerMessage
    simp only [hc, hp, hj, isEmpty_false_of_ne_nil hne, Bool.not_false,
      Bool.true_and, if_true]
    split <;> rfl
  refine ⟨?_, ?_, ?_, ?_, fun nc hm ht => markStlPending_mem cs nc hm ht, ?_⟩
  · rw [hmain]
  · rw [hmain]
    split <;> rfl
  · rw [hmain]
  · rw [hmain]
  · intro env2 s2 ws2 r2 o2 hyp
    unfold handleErgogenWorkerMessage
    rcases hyp with h | h | h
    · cases hr : r2.cases with
      | none => simp [hr]
      | some cs2 => simp [hr, h]
    · simp [h]
    · simp [h]

/-- A success document with one geometry-bearing case and an unrelated
category. -/
def c6GeomDoc : Results :=
  ⟨some [("case1", ⟨some "cube();", StlField.absent⟩)], [("points", "pts")]⟩

/-- Witness for the amended C6: a geometry-bearing success posts exactly
the one pending-marked secondary request. -/
theorem c6_secondary_trigger_witness :
    (handleErgogenWorkerMessage envStl c6BusyState
        (ErgogenResponse.success [] (some c6GeomDoc) 1)).2 =
      [OutMsg.batchJscadToStl
        { c6GeomDoc with
            cases := some (markStlPending [("case1", ⟨some "cube();", StlField.absent⟩)]) }
        c6BusyState.currentConfigVersion] :=
  (c6_secondary_trigger envStl c6BusyState [] c6GeomDoc
    [("case1", ⟨some "cube();", StlField.absent⟩)] 1 rfl rfl rfl (by decide)).1

/-! ## C9 — the deprecation scan -/

/-- If some PCB of the parsed config has a falsy-or-`kicad5` template and
some footprint whose `what` is a string starting with the legacy-family
prefix, the scan reports it. -/
theorem deprecationScan_of_mem (pcbs : List (String × Pcb)) (name : String)
    (pcb : Pcb) (fps : List (String × Option Footprint)) (fname : String)
    (fp : Footprint) (w : String)
    (hmem : (name, pcb) ∈ pcbs)
    (htmpl : (templateFalsy pcb.template || pcb.template == some "kicad5") = true)
    (hfps : pcb.footprints = some fps)
    (hfmem : (fname, some fp) ∈ fps)
    (hw : fp.what = some w)
    (hstart : strStartsWith w "ceoloide" = true) :
    deprecationScan pcbs = true := by
  unfold deprecationScan
  rw [List.any_eq_true]
  refine ⟨(name, pcb), hmem, ?_⟩
  unfold pcbHasDeprecated
  rw [if_pos htmpl, hfps, List.any_eq_true]
  refine ⟨(fname, some fp), hfmem, ?_⟩
  show footprintDeprecated (some fp) = true
  simp only [footprintDeprecated, hw]
  exact hstart

/-- The success handler's effect on the warning text: unchanged when the
response carries no warnings, otherwise the appended text — independent
of the results payload, the preview setting and the worker channel. -/
theorem handleErgogen_success_warning (env2 : Env) (st : CoordState)
    (ws : List String) (res : Option Results) (o : Nat) :
    (handleErgogenWorkerMessage env2 st (ErgogenResponse.success ws res o)).1.deprecationWarning =
      if ws.isEmpty then st.deprecationWarning
      else appendWarnings st.deprecationWarning ws := by
  simp only [handleErgogenWorkerMessage]
  cases res with
  | none =>
    repeat' split
    all_goals simp_all
  | some r =>
    cases hr : r.cases with
    | none =>
      simp only [hr]
      repeat' split
      all_goals simp_all
    | some cs =>
      simp only [hr]
      repeat' split
      all_goals simp_all

/-- When the parse succeeds, the config has a truthy `pcbs` object and the
scan matches, `scanStep` sets exactly the deprecation message. -/
theorem scanStep_warning_of_scan (cfg : ParsedConfig) (s1 : CoordState)
    (pcbs : List (String × Pcb)) (hpcbs : cfg.pcbs = some pcbs)
    (hscan : deprecationScan pcbs = true) :
    (scanStep (some cfg) s1).deprecationWarning = some deprecationMessage := by
  unfold scanStep
  simp only [hpcbs, hscan, if_true]

/-- Claim C9: for a dispatched snapshot whose parsed form has a PCB with a
falsy or legacy-default (`kicad5`) template containing a footprint whose
`what` starts with the legacy-family prefix `ceoloide`, the scan (run on
the unmodified parsed snapshot before dispatch) leaves the warning equal
to the deprecation message in the post-dispatch state — whatever the
dispatch outcome — and after any subsequent primary success response the
warning text still starts with the deprecation message. -/
theorem c9_deprecation_scan (env env2 : Env) (parse : String → Option ParsedConfig)
    (s : CoordState) (text : String) (inj : Option (List (List String)))
    (opts : ProcessOptions) (cfg : ParsedConfig) (pcbs : List (String × Pcb))
    (name : String) (pcb : Pcb) (fps : List (String × Option Footprint))
    (fname : String) (fp : Footprint) (w : String)
    (ws : List String) (res : Option Results) (o : Nat)
    (ht : (text == "") = false)
    (hparse : parse text = some cfg)
    (hpcbs : cfg.pcbs = some pcbs)
    (hmem : (name, pcb) ∈ pcbs)
    (htmpl : (templateFalsy pcb.template || pcb.template == some "kicad5") = true)
    (hfps : pcb.footprints = some fps)
    (hfmem : (fname, some fp) ∈ fps)
    (hw : fp.what = some w)
    (hstart : strStartsWith w "ceoloide" = true) :
    (runGeneration env parse s (some text) inj opts).1.deprecationWarning =
      some deprecationMessage ∧
    ∃ tail,
      (handleErgogenWorkerMessage env2
          (runGeneration env parse s (some text) inj opts).1
          (ErgogenResponse.success ws res o)).1.deprecationWarning =
        some (deprecationMessage ++ tail) := by
  have hscan : deprecationScan pcbs = true :=
    deprecationScan_of_mem pcbs name pcb fps fname fp w hmem htmpl hfps hfmem hw hstart
  have hwarn : (runGeneration env parse s (some text) inj opts).1.deprecationWarning =
      some deprecationMessage := by
    rw [runGeneration_nonempty env parse s text inj opts ht, dispatchStep_warning,
        hparse, scanStep_warning_of_scan cfg (beginCycle s) pcbs hpcbs hscan]
  refine ⟨hwarn, ?_⟩
  rw [handleErgogen_success_warning, hwarn]
  by_cases hws : ws.isEmpty
  · exact ⟨"", by rw [if_pos hws, String.append_empty]⟩
  · refine ⟨"\n" ++ String.intercalate "\n" ws, ?_⟩
    rw [if_neg hws]
    have hne : (deprecationMessage == "") = false := by decide
    simp only [appendWarnings, hne, Bool.false_eq_true, if_false, String.append_assoc]

/-- A concrete config matching the deprecated pattern: one PCB with no
template and one `ceoloide` footprint. -/
def c9Footprint : Footprint := ⟨some "ceoloide/switch_mx"⟩

/-- The PCB entry holding `c9Footprint` with no template set. -/
def c9Pcb : Pcb := ⟨none, some [("x", some c9Footprint)]⟩

/-- Parsed form of the C9 witness snapshot. -/
def c9Cfg : ParsedConfig := ⟨true, some [("kb", c9Pcb)], false, "rest"⟩

/-- Parser collaborator returning `c9Cfg` for every snapshot. -/
def c9Parse : String → Option ParsedConfig := fun _ => some c9Cfg

/-- Witness for C9: after dispatching the deprecated snapshot the warning
is exactly the deprecation message. -/
theorem c9_deprecation_scan_witness :
    (runGeneration envPlain c9Parse initialState (some "points: ...") none
        optsPointsOnly).1.deprecationWarning = some deprecationMessage :=
  (c9_deprecation_scan envPlain envPlain c9Parse initialState "points: ..." none
    optsPointsOnly c9Cfg [("kb", c9Pcb)] "kb" c9Pcb [("x", some c9Footprint)]
    "x" c9Footprint "ceoloide/switch_mx" [] none 0
    (by decide) rfl rfl (by decide) (by decide) rfl (by decide) rfl (by decide)).1

/-! ## C5 — debounce coalescing -/

/-- When all gaps are inside the quiet period, the trailing debounce fires
exactly once, at the last call's deadline, with the last call's
arguments. -/
theorem debounceFires_single (wait : Nat) :
    ∀ (l : List (Nat × GenArgs)) (t : Nat) (a : GenArgs),
      gapsWithin wait ((t, a) :: l) = true →
      debounceFires wait ((t, a) :: l) =
        [((((t, a) :: l).getLast (List.cons_ne_nil _ _)).1 + wait,
          (((t, a) :: l).getLast (List.cons_ne_nil _ _)).2)] := by
  intro l
  induction l with
  | nil =>
    intro t a _
    rfl
  | cons p rest ih =>
    intro t a h
    obtain ⟨t2, a2⟩ := p
    unfold gapsWithin at h
    rw [Bool.and_eq_true, decide_eq_true_eq] at h
    obtain ⟨h1, h2⟩ := h
    show (if t2 < t + wait then debounceFires wait ((t2, a2) :: rest)
          else (t + wait, a) :: debounceFires wait ((t2, a2) :: rest)) =
        [((((t, a) :: (t2, a2) :: rest).getLast (List.cons_ne_nil _ _)).1 + wait,
          (((t, a) :: (t2, a2) :: rest).getLast (List.cons_ne_nil _ _)).2)]
    rw [if_pos h1, ih t2 a2 h2, List.getLast_cons (List.cons_ne_nil (t2, a2) rest)]

/-- Claim C5: for a sequence of debounced trigger calls whose gaps are all
within the 300 ms quiet period, exactly one invocation fires — at the
last call's deadline, with the last call's snapshot, injections and
options — and that invocation posts exactly one primary request built
from those latest arguments. -/
theorem c5_debounce_single_dispatch (t0 : Nat) (a0 : GenArgs)
    (calls : List (Nat × GenArgs)) (env : Env)
    (parse : String → Option ParsedConfig) (s : CoordState) (text : String)
    (hg : gapsWithin 300 ((t0, a0) :: calls) = true)
    (hlast : (((t0, a0) :: calls).getLast (List.cons_ne_nil _ _)).2.textInput =
      some text)
    (ht : (text == "") = false)
    (hw : env.ergogenWorker = true) (hp : env.ergogenPost = PostResult.ok) :
    debounceFires 300 ((t0, a0) :: calls) =
      [((((t0, a0) :: calls).getLast (List.cons_ne_nil _ _)).1 + 300,
        (((t0, a0) :: calls).getLast (List.cons_ne_nil _ _)).2)] ∧
    (runGeneration env parse s
        (((t0, a0) :: calls).getLast (List.cons_ne_nil _ _)).2.textInput
        (((t0, a0) :: calls).getLast (List.cons_ne_nil _ _)).2.inj
        (((t0, a0) :: calls).getLast (List.cons_ne_nil _ _)).2.opts).2 =
      [OutMsg.generate
        (mkInputConfig text (parse text)
          (((t0, a0) :: calls).getLast (List.cons_ne_nil _ _)).2.opts)
        (((t0, a0) :: calls).getLast (List.cons_ne_nil _ _)).2.inj
        (s.currentConfigVersion + 1) env.debug] := by
  refine ⟨debounceFires_single 300 calls t0 a0 hg, ?_⟩
  rw [hlast,
      runGeneration_nonempty env parse s text
        (((t0, a0) :: calls).getLast (List.cons_ne_nil _ _)).2.inj
        (((t0, a0) :: calls).getLast (List.cons_ne_nil _ _)).2.opts ht]
  unfold dispatchStep
  rw [hp]
  simp only [hw, if_true, scanStep_version]
  rfl

/-- First of the two coalesced calls of the C5 witness. -/
def c5CallA : GenArgs := ⟨some "first edit", none, ⟨true⟩⟩

/-- Last call of the C5 witness sequence; its arguments win. -/
def c5CallB : GenArgs :=
  ⟨some "last edit", some [["footprint", "fp1", "module.exports = ..."]], ⟨false⟩⟩

/-- Witness for C5: calls at 0 ms and 200 ms (gap inside the 300 ms
window) coalesce into the single firing at 500 ms with the last
arguments. -/
theorem c5_debounce_single_dispatch_witness :
    debounceFires 300 [(0, c5CallA), (200, c5CallB)] = [(500, c5CallB)] :=
  (c5_debounce_single_dispatch 0 c5CallA [(200, c5CallB)] envPlain parseNone
    initialState "last edit" (by decide) rfl (by decide) rfl rfl).1

end ErgogenGui
